import Mathlib

/-!
Verification of cncjs-pendant-gamepad against its specification.

The development shallowly embeds the two source files:
* `joystick.js` (the input decoder `parse` and the axis filter in `onRead`),
* `index.js` (gesture state machine `ButtonState`, `Selector`, the jog
  throttle `jog`/`jogPendingTimeout`/`serialport:read`, the numeric `map`
  functions, `feedrate`/`decideFeedrate`, `triggerMovement`, and the
  button/axis dispatch tables).

JavaScript numbers are modelled with `ℤ`/`ℚ` (exact arithmetic); `toFixed(2)`
is modelled as rounding to hundredths; `Math.sqrt` is modelled with
`Real.sqrt`.  JS sparse arrays holding per-control state are modelled as
functions `ℕ → Option ℤ` (`none` = `undefined`), and JS truthiness of a
stored number (`undefined` and `0` are falsy) is modelled by `jsTruthy`.
-/

namespace Pendant

/-! ## Input decoder (`joystick.js`, `parse`) -/

inductive EvKind where
  | button
  | axis
deriving DecidableEq, Repr

/-- A decoded event, as built by `parse`: `time`, `value`, `number`,
`init` (absent means false) and the final value of `event.type`
(`none` when neither type bit was set). -/
structure RawEvent where
  time : ℕ
  value : ℤ
  number : ℕ
  init : Bool
  kind : Option EvKind
deriving DecidableEq, Repr

/-- An 8-byte input record. -/
structure Buf8 where
  b0 : Fin 256
  b1 : Fin 256
  b2 : Fin 256
  b3 : Fin 256
  b4 : Fin 256
  b5 : Fin 256
  b6 : Fin 256
  b7 : Fin 256

/-- `buffer.readUInt32LE(0)`. -/
def readUInt32LE (b : Buf8) : ℕ :=
  b.b0.val + 256 * b.b1.val + 65536 * b.b2.val + 16777216 * b.b3.val

/-- `buffer.readInt16LE(4)` (two's-complement signed 16-bit). -/
def readInt16LE (b : Buf8) : ℤ :=
  let u := b.b4.val + 256 * b.b5.val
  if u < 32768 then (u : ℤ) else (u : ℤ) - 65536

/-- The two sequential assignments
`if (type & 0x01) event.type = 'button'; if (type & 0x02) event.type = 'axis';`
— the later assignment overwrites the earlier one. -/
def typeKind (t : ℕ) : Option EvKind :=
  let k : Option EvKind := none
  let k := if t &&& 1 != 0 then some EvKind.button else k
  let k := if t &&& 2 != 0 then some EvKind.axis else k
  k

/-- `parse` from `joystick.js`: a total, pure transform of an 8-byte record. -/
def parse (b : Buf8) : RawEvent :=
  { time := readUInt32LE b
    value := readInt16LE b
    number := b.b7.val
    init := b.b6.val &&& 128 != 0
    kind := typeKind b.b6.val }

/-! ## Axis filter (`joystick.js`, `onRead`) -/

/-- The two module arrays `lastAxisValue` and `lastAxisEmittedValue`,
indexed by control number; `none` models a hole (`undefined`). -/
structure FilterState where
  lastAxisValue : ℕ → Option ℤ
  lastAxisEmittedValue : ℕ → Option ℤ

def initFilter : FilterState := ⟨fun _ => none, fun _ => none⟩

/-- JS truthiness of a stored number: `undefined` and `0` are falsy. -/
def jsTruthy : Option ℤ → Bool
  | none => false
  | some v => v != 0

/-- `if (deadzone && Math.abs(event.value) < deadzone) event.value = 0`. -/
def dzClamp (deadzone v : ℤ) : ℤ :=
  if deadzone != 0 && decide (|v| < deadzone) then 0 else v

/-- Result of one axis event through `onRead`: the new filter state and the
forwarded (emitted) value, if the event was not squelched. -/
structure AxisStep where
  state : FilterState
  forwarded : Option ℤ

/-- One `axis` event through the filter part of `onRead`, faithful to the
source order: sensitivity squelch on the raw value (guarded by truthiness of
`lastAxisValue[event.number]`), then the deadzone clamp, then the
duplicate-emission check, which updates `lastAxisEmittedValue` even when the
sensitivity stage already squelched the event. -/
def axisRead (deadzone sensitivity : ℤ) (s : FilterState) (number : ℕ)
    (value : ℤ) : AxisStep :=
  let sensSq : Bool :=
    sensitivity != 0 &&
      (jsTruthy (s.lastAxisValue number) &&
        decide (|(s.lastAxisValue number).getD 0 - value| < sensitivity) &&
        value != 0)
  let lastAxisValue' :=
    if sensitivity != 0 && !sensSq then
      Function.update s.lastAxisValue number (some value)
    else s.lastAxisValue
  let v := dzClamp deadzone value
  let dupSq : Bool := s.lastAxisEmittedValue number == some v
  let lastAxisEmittedValue' :=
    if dupSq then s.lastAxisEmittedValue
    else Function.update s.lastAxisEmittedValue number (some v)
  { state := ⟨lastAxisValue', lastAxisEmittedValue'⟩
    forwarded := if sensSq || dupSq then none else some v }

/-- Run a list of `(number, value)` axis events through the filter,
collecting the forwarded values. -/
def runAxis (deadzone sensitivity : ℤ) (s : FilterState) :
    List (ℕ × ℤ) → FilterState × List ℤ
  | [] => (s, [])
  | (n, v) :: rest =>
    let st := axisRead deadzone sensitivity s n v
    let r := runAxis deadzone sensitivity st.state rest
    (r.1, st.forwarded.toList ++ r.2)

/-! ## Dispatch tables (`index.js`, `BUTTONS` / `AXES` and the
`joy.on('button')` / `joy.on('axis')` handlers) -/

/-- The `BUTTONS` table (keys 0–14). -/
def BUTTONS : ℕ → Option String
  | 0 => some "A"
  | 1 => some "B"
  | 2 => some "2"
  | 3 => some "X"
  | 4 => some "Y"
  | 5 => some "5"
  | 6 => some "LB"
  | 7 => some "RB"
  | 8 => some "8"
  | 9 => some "9"
  | 10 => some "10"
  | 11 => some "START"
  | 12 => some "12"
  | 13 => some "L3"
  | 14 => some "R3"
  | _ => none

/-- The `AXES` table (keys 0–7). -/
def AXES : ℕ → Option String
  | 0 => some "LSX"
  | 1 => some "LSY"
  | 2 => some "RSX"
  | 3 => some "RSY"
  | 4 => some "RT"
  | 5 => some "LT"
  | 6 => some "PADX"
  | 7 => some "PADY"
  | _ => none

/-- Outcome of an event handler: an init event only logs the id, a normal
event calls the handler, and a control index outside the table makes the
member access `BUTTONS[e.number].id` / `.cb` throw a TypeError. -/
inductive DispatchOutcome where
  | logged (id : String)
  | handled (id : String)
  | thrown
deriving DecidableEq, Repr

/-- The `joy.on('button', ...)` handler. -/
def onButtonEvent (number : ℕ) (init : Bool) : DispatchOutcome :=
  match BUTTONS number with
  | none => DispatchOutcome.thrown
  | some id => if init then DispatchOutcome.logged id else DispatchOutcome.handled id

/-- The `joy.on('axis', ...)` handler. -/
def onAxisEvent (number : ℕ) (init : Bool) : DispatchOutcome :=
  match AXES number with
  | none => DispatchOutcome.thrown
  | some id => if init then DispatchOutcome.logged id else DispatchOutcome.handled id

/-! ## Button gesture state machine (`index.js`, `ButtonState`)

The `setTimeout` handle is modelled by `timer_armed`: `press` arms the timer,
a short `unpress` clears it (`clearTimeout`), and the timer callback
`onTimeout` can only run while it is armed.  The three bound callbacks are
modelled by invocation counters. -/

structure ButtonState where
  pending : Bool
  long_pressed : Bool
  timer_armed : Bool
  shorts : ℕ
  longs : ℕ
  cancels : ℕ
deriving DecidableEq, Repr

def initButton : ButtonState :=
  { pending := false, long_pressed := false, timer_armed := false
    shorts := 0, longs := 0, cancels := 0 }

def press (s : ButtonState) : ButtonState :=
  if !s.pending then { s with pending := true, timer_armed := true } else s

def unpress (s : ButtonState) : ButtonState :=
  if s.pending then
    if !s.long_pressed then
      { s with pending := false, timer_armed := false, shorts := s.shorts + 1 }
    else
      { s with pending := false, long_pressed := false, cancels := s.cancels + 1 }
  else s

def onTimeout (s : ButtonState) : ButtonState :=
  if s.timer_armed then
    { s with timer_armed := false, long_pressed := true, longs := s.longs + 1 }
  else s

/-! ## Selector (`index.js`, `Selector`) -/

structure Selector (α : Type) where
  index : ℤ
  options : List α

/-- `this.index = Math.min(this.index + 1, this.options.length - 1)`. -/
def Selector.increase {α : Type} (s : Selector α) : Selector α :=
  { s with index := min (s.index + 1) ((s.options.length : ℤ) - 1) }

/-- `this.index = Math.max(this.index - 1, 0)`. -/
def Selector.decrease {α : Type} (s : Selector α) : Selector α :=
  { s with index := max (s.index - 1) 0 }

/-- JS array indexing: out-of-range gives `undefined`. -/
def jsGetElem {α : Type} (l : List α) (i : ℤ) : Option α :=
  if 0 ≤ i then l.get? i.toNat else none

def Selector.get {α : Type} (s : Selector α) : Option α :=
  jsGetElem s.options s.index

inductive SelOp where
  | inc
  | dec

def Selector.apply {α : Type} (s : Selector α) : SelOp → Selector α
  | SelOp.inc => s.increase
  | SelOp.dec => s.decrease

def Selector.applyAll {α : Type} (s : Selector α) : List SelOp → Selector α
  | [] => s
  | op :: ops => (s.apply op).applyAll ops

/-- `STEP_DISTANCES` from `index.js`. -/
def STEP_DISTANCES : List ℚ := [1/100, 1/10, 1, 10]

/-- `STEP_FEEDRATES` from `index.js`. -/
def STEP_FEEDRATES : List ℚ := [100, 500, 1000, 2000]

/-! ## Jog throttle (`index.js`, `jog` / `jogPendingTimeout` /
`socket.on('serialport:read')`)

Note that in the source, `clearTimeout(jogPendingTimeout)` passes the callback
function rather than a timer id, so no timer is actually cancelled; in this
model, timer expiry is simply an event (`jogPendingTimeout`) that may occur
after a jog was sent. -/

structure JogState where
  jog_pending : Bool
  sent : List String
deriving DecidableEq, Repr

/-- `function jog(cmd)`: emit the command only when no jog is pending. -/
def jogCmd (s : JogState) (cmd : String) : JogState :=
  if !s.jog_pending then { jog_pending := true, sent := s.sent ++ [cmd] }
  else s

/-- `function jogPendingTimeout()`. -/
def jogPendingTimeout (s : JogState) : JogState :=
  { s with jog_pending := false }

/-- Char-list membership test used to model `String.prototype.includes`. -/
def chStarts : List Char → List Char → Bool
  | [], _ => true
  | _ :: _, [] => false
  | a :: as, b :: bs => a == b && chStarts as bs

def chHasSub (needle : List Char) : List Char → Bool
  | [] => needle.isEmpty
  | b :: bs => chStarts needle (b :: bs) || chHasSub needle bs

/-- `data.includes(sub)`. -/
def strIncludes (data sub : String) : Bool := chHasSub sub.data data.data

/-- The `socket.on('serialport:read')` handler: an acknowledgement containing
`ok` or `error` clears the in-flight flag; anything else is only logged. -/
def serialRead (s : JogState) (data : String) : JogState :=
  if strIncludes data "ok" || strIncludes data "error" then
    { s with jog_pending := false }
  else s

/-! ## Numeric mapping (`index.js`) -/

/-- Model of `Number(x).toFixed(2)` read back as a number: rounding to
hundredths. -/
def toFixed2 (q : ℚ) : ℚ := (round (q * 100) : ℤ) / 100

/-- The five-argument `map` declared at line 462 of `index.js`.  Because the
three-argument `function map` below is declared later in the same scope, JS
function hoisting makes the later declaration shadow this one for the whole
scope; no call site actually reaches this function. -/
def map5 (x in_min in_max out_min out_max : ℚ) : ℚ :=
  toFixed2 ((x - in_min) * (out_max - out_min) / (in_max - in_min) + out_min)

/-- The three-argument `map` declared at line 502 of `index.js`; this is the
binding in effect for every call to `map` in the file. -/
def map3 (x in_range_half out_range_half : ℚ) : ℚ :=
  toFixed2 ((x + in_range_half) * out_range_half / in_range_half - out_range_half)

/-- The speed argument built by `triggerMovement`:
`map(rt, -JOYSTICK_AXIS_MAX, JOYSTICK_AXIS_MAX, SPINDLE_MIN_SPEED, SPINDLE_MAX_SPEED)`,
which resolves to the three-argument `map` with the two extra arguments
ignored. -/
def spindleSpeedArg (rt : ℚ) : ℚ := map3 rt (-32767) 32767

/-- `triggerMovement` (the 5 s interval): while both LB and RB are held it
emits `M3 S<speed>`; we return the numeric speed argument. -/
def triggerMovement (lb rb : Bool) (rt : ℚ) : Option ℚ :=
  if lb && rb then some (spindleSpeedArg rt) else none

/-! ## Continuous jog feedrate (`index.js`, `feedrate` / `decideFeedrate`) -/

/-- `AxisState` from `index.js` (`update` sets `active = value != 0`). -/
structure AxisSt where
  value : ℚ
  active : Bool

def AxisSt.update (v : ℚ) : AxisSt := ⟨v, v != 0⟩

/-- `feedrate(value) = Math.abs(map(value, JOYSTICK_AXIS_MAX, MAX_JOG_FEEDRATE))`. -/
def feedrate (value : ℚ) : ℚ := |map3 value 32767 3000|

open Classical in
/-- `decideFeedrate(x, y, z)` from `index.js`: planar norm of the x/y
feedrates, optionally overridden by a lower z feedrate. -/
noncomputable def decideFeedrate (x y z : AxisSt) : ℝ :=
  let jf : ℝ := Real.sqrt (((feedrate x.value : ℚ) : ℝ) ^ 2 + ((feedrate y.value : ℚ) : ℝ) ^ 2)
  if z.active then
    if jf ≠ 0 then min jf ((feedrate z.value : ℚ) : ℝ)
    else ((feedrate z.value : ℚ) : ℝ)
  else jf

open Classical in
/-- Modelled from the spec (§4.6): per-axis feedrate
`|linear_map(value, axis_max, max_jog_feedrate)|`, combined planar feedrate =
Euclidean norm of the horizontal/vertical components, and if the depth axis is
active the final feedrate is the minimum of the planar and depth feedrates (or
the depth feedrate alone when the planar feedrate is zero).  Written from the
spec's words, for comparison with `decideFeedrate`. -/
noncomputable def specFinalFeedrate (x y z : AxisSt) : ℝ :=
  let fh : ℝ := ((|map3 x.value 32767 3000| : ℚ) : ℝ)
  let fv : ℝ := ((|map3 y.value 32767 3000| : ℚ) : ℝ)
  let fd : ℝ := ((|map3 z.value 32767 3000| : ℚ) : ℝ)
  let planar : ℝ := Real.sqrt (fh ^ 2 + fv ^ 2)
  if z.active then (if planar = 0 then fd else min planar fd) else planar

/-! ## Theorems -/

/-- Helper: a single `increase`/`decrease` keeps a valid index valid and
leaves the option list unchanged. -/
theorem selector_apply_inv {α : Type} (s : Selector α) (op : SelOp)
    (h0 : 0 ≤ s.index) (h1 : s.index < s.options.length) :
    (s.apply op).options = s.options ∧ 0 ≤ (s.apply op).index ∧
      (s.apply op).index < s.options.length := by
  cases op with
  | inc =>
    refine ⟨rfl, ?_, ?_⟩ <;>
      · simp only [Selector.apply, Selector.increase]
        omega
  | dec =>
    refine ⟨rfl, ?_, ?_⟩ <;>
      · simp only [Selector.apply, Selector.decrease]
        omega

/-- Helper: any sequence of `increase`/`decrease` calls keeps a valid index
valid. -/
theorem selector_applyAll_inv {α : Type} (ops : List SelOp) (s : Selector α)
    (h0 : 0 ≤ s.index) (h1 : s.index < s.options.length) :
    (s.applyAll ops).options = s.options ∧ 0 ≤ (s.applyAll ops).index ∧
      (s.applyAll ops).index < s.options.length := by
  induction ops generalizing s with
  | nil => exact ⟨rfl, h0, h1⟩
  | cons op ops ih =>
    obtain ⟨ho, hi0, hi1⟩ := selector_apply_inv s op h0 h1
    obtain ⟨ho', hi0', hi1'⟩ := ih (s.apply op) hi0 (by rw [ho]; exact hi1)
    refine ⟨?_, ?_, ?_⟩ <;> simp only [Selector.applyAll]
    · rw [ho', ho]
    · exact hi0'
    · rw [ho] at hi1'
      exact hi1'

/-- C8: Selector bound invariant — starting from an index in `[0, len-1]`,
every sequence of `increase`/`decrease` calls keeps the index in
`[0, len-1]`; `increase` at `len-1` and `decrease` at `0` are no-ops
(saturation), and `get` always returns an element of the options list. -/
theorem selector_bounds {α : Type} (s : Selector α) (ops : List SelOp)
    (h0 : 0 ≤ s.index) (h1 : s.index < s.options.length) :
    ((s.applyAll ops).options = s.options ∧ 0 ≤ (s.applyAll ops).index ∧
      (s.applyAll ops).index < s.options.length) ∧
    (s.index = (s.options.length : ℤ) - 1 → s.increase = s) ∧
    (s.index = 0 → s.decrease = s) ∧
    (∃ a, s.get = some a ∧ a ∈ s.options) := by
  refine ⟨selector_applyAll_inv ops s h0 h1, ?_, ?_, ?_⟩
  · intro h
    cases s with
    | mk i opts => simp only [Selector.increase] at *; congr 1; omega
  · intro h
    cases s with
    | mk i opts => simp only [Selector.decrease] at *; congr 1; omega
  · have hlt : s.index.toNat < s.options.length := by omega
    refine ⟨s.options.get ⟨s.index.toNat, hlt⟩, ?_, List.get_mem _ _ _⟩
    simp [Selector.get, jsGetElem, h0, List.get?_eq_get hlt]

/-- C8 witness: the pendant's step-distance selector (default index 2 over
`[0.01, 0.1, 1, 10]`) under a concrete operation sequence. -/
theorem selector_bounds_witness :
    (((Selector.mk 2 STEP_DISTANCES).applyAll [SelOp.inc, SelOp.inc, SelOp.dec]).options
        = STEP_DISTANCES ∧
      0 ≤ ((Selector.mk 2 STEP_DISTANCES).applyAll [SelOp.inc, SelOp.inc, SelOp.dec]).index ∧
      ((Selector.mk 2 STEP_DISTANCES).applyAll [SelOp.inc, SelOp.inc, SelOp.dec]).index
        < STEP_DISTANCES.length) ∧
    ((Selector.mk 2 STEP_DISTANCES).index = (STEP_DISTANCES.length : ℤ) - 1 →
      (Selector.mk 2 STEP_DISTANCES).increase = Selector.mk 2 STEP_DISTANCES) ∧
    ((Selector.mk 2 STEP_DISTANCES).index = 0 →
      (Selector.mk 2 STEP_DISTANCES).decrease = Selector.mk 2 STEP_DISTANCES) ∧
    (∃ a, (Selector.mk 2 STEP_DISTANCES).get = some a ∧ a ∈ STEP_DISTANCES) :=
  selector_bounds (Selector.mk 2 STEP_DISTANCES) [SelOp.inc, SelOp.inc, SelOp.dec]
    (by decide) (by decide)

/-- C5: Button gesture callback counts — from an idle `ButtonState`, a
`press()` followed by an `unpress()` before the press-hold timeout fires
invokes the short-press callback exactly once and the long-press/long-cancel
callbacks zero times; a `press()` held until the timeout fires invokes the
long-press callback exactly once, and the subsequent `unpress()` invokes the
long-cancel callback exactly once and the short-press callback zero times. -/
theorem button_gesture_counts (s : ButtonState) (hp : s.pending = false)
    (hl : s.long_pressed = false) :
    ((unpress (press s)).shorts = s.shorts + 1 ∧
      (unpress (press s)).longs = s.longs ∧
      (unpress (press s)).cancels = s.cancels) ∧
    ((onTimeout (press s)).longs = s.longs + 1 ∧
      (onTimeout (press s)).shorts = s.shorts ∧
      (onTimeout (press s)).cancels = s.cancels) ∧
    ((unpress (onTimeout (press s))).cancels = s.cancels + 1 ∧
      (unpress (onTimeout (press s))).shorts = s.shorts ∧
      (unpress (onTimeout (press s))).longs = s.longs + 1) := by
  simp [press, unpress, onTimeout, hp, hl]

/-- C5 witness: the gesture scenarios at the freshly constructed state. -/
theorem button_gesture_counts_witness :
    ((unpress (press initButton)).shorts = initButton.shorts + 1 ∧
      (unpress (press initButton)).longs = initButton.longs ∧
      (unpress (press initButton)).cancels = initButton.cancels) ∧
    ((onTimeout (press initButton)).longs = initButton.longs + 1 ∧
      (onTimeout (press initButton)).shorts = initButton.shorts ∧
      (onTimeout (press initButton)).cancels = initButton.cancels) ∧
    ((unpress (onTimeout (press initButton))).cancels = initButton.cancels + 1 ∧
      (unpress (onTimeout (press initButton))).shorts = initButton.shorts ∧
      (unpress (onTimeout (press initButton))).longs = initButton.longs + 1) :=
  button_gesture_counts initButton rfl rfl

/-- C1: Single-in-flight jog discipline — while `jog_pending` is set, `jog`
emits nothing and changes nothing; when it is clear, `jog` emits exactly one
command and sets the flag; the flag is cleared exactly by the in-flight
timeout firing or by an acknowledgement containing `ok` or `error` (neither
of which emits anything), and any other acknowledgement leaves the state
untouched. -/
theorem jog_single_in_flight :
    (∀ (s : JogState) (c : String), s.jog_pending = true → jogCmd s c = s) ∧
    (∀ (s : JogState) (c : String), s.jog_pending = false →
      (jogCmd s c).sent = s.sent ++ [c] ∧ (jogCmd s c).jog_pending = true) ∧
    (∀ s : JogState, (jogPendingTimeout s).jog_pending = false ∧
      (jogPendingTimeout s).sent = s.sent) ∧
    (∀ (s : JogState) (d : String),
      (strIncludes d "ok" || strIncludes d "error") = true →
      (serialRead s d).jog_pending = false ∧ (serialRead s d).sent = s.sent) ∧
    (∀ (s : JogState) (d : String),
      (strIncludes d "ok" || strIncludes d "error") = false →
      serialRead s d = s) := by
  refine ⟨?_, ?_, ?_, ?_, ?_⟩
  · intro s c h
    simp [jogCmd, h]
  · intro s c h
    simp [jogCmd, h]
  · intro s
    simp [jogPendingTimeout]
  · intro s d h
    simp [serialRead, h]
  · intro s d h
    simp [serialRead, h]

/-- C1 witness: with a jog in flight nothing is emitted; an `ok`
acknowledgement clears the flag; the next jog call then emits exactly one
command. -/
theorem jog_single_in_flight_witness :
    (jogCmd (JogState.mk true ["a"]) "b" = JogState.mk true ["a"]) ∧
    ((serialRead (JogState.mk true ["a"]) "ok").jog_pending = false ∧
      (serialRead (JogState.mk true ["a"]) "ok").sent = ["a"]) ∧
    ((jogCmd (JogState.mk false ["a"]) "b").sent = ["a"] ++ ["b"] ∧
      (jogCmd (JogState.mk false ["a"]) "b").jog_pending = true) ∧
    ((jogPendingTimeout (JogState.mk true ["a"])).jog_pending = false ∧
      (jogPendingTimeout (JogState.mk true ["a"])).sent = ["a"]) ∧
    (serialRead (JogState.mk true ["a"]) "busy" = JogState.mk true ["a"]) :=
  ⟨jog_single_in_flight.1 (JogState.mk true ["a"]) "b" rfl,
    jog_single_in_flight.2.2.2.1 (JogState.mk true ["a"]) "ok" (by decide),
    jog_single_in_flight.2.1 (JogState.mk false ["a"]) "b" rfl,
    jog_single_in_flight.2.2.1 (JogState.mk true ["a"]),
    jog_single_in_flight.2.2.2.2 (JogState.mk true ["a"]) "busy" (by decide)⟩

/-- C3: the claim (and the spec, §4.3/§7) requires an unknown control index
to be logged and dropped, never fatal; the code instead evaluates
`BUTTONS[e.number].cb` (resp. `.id`, and likewise for `AXES`), a member
access on `undefined` that throws a TypeError.  This theorem evaluates the
embedded handlers at out-of-table indices: button index 15 and axis index 8
both reach the throwing outcome, for init and non-init events alike. -/
theorem unknown_control_crash :
    onButtonEvent 15 false = DispatchOutcome.thrown ∧
    onButtonEvent 15 true = DispatchOutcome.thrown ∧
    onAxisEvent 8 false = DispatchOutcome.thrown ∧
    onAxisEvent 8 true = DispatchOutcome.thrown ∧
    onButtonEvent 0 false = DispatchOutcome.handled "A" ∧
    onAxisEvent 0 true = DispatchOutcome.logged "LSX" := by
  decide

/-- C2: the claim (and the spec) wants the spindle speed mapped linearly from
`[-32767, 32767]` into `[0, 24000]`.  The call in `triggerMovement` passes
five arguments, but JS function hoisting makes the later three-argument
`map` shadow the five-argument one, so the call computes
`map3 rt (-32767) 32767 = -rt`: at `rt = 16383` the emitted speed argument is
`-16383`, outside `[0, 24000]`, while the intended five-argument map would
give `17999.82`, inside the range. -/
theorem spindle_speed_code_divergence :
    triggerMovement true true 16383 = some (-16383) ∧
    ¬ ((0 : ℚ) ≤ -16383 ∧ (-16383 : ℚ) ≤ 24000) ∧
    map5 16383 (-32767) 32767 0 24000 = 1799982 / 100 ∧
    (0 : ℚ) ≤ 1799982 / 100 ∧ (1799982 : ℚ) / 100 ≤ 24000 := by
  refine ⟨?_, by norm_num, ?_, by norm_num, by norm_num⟩
  · have h : spindleSpeedArg 16383 = -16383 := by
      norm_num [spindleSpeedArg, map3, toFixed2, round_eq]
    simp [triggerMovement, h]
  · norm_num [map5, toFixed2, round_eq]

/-- C10: Implicit zero-value bypass of the sensitivity squelch — with the
sensitivity stage enabled (`sensitivity ≠ 0`; with `sensitivity = 0` the
stage is skipped and no raw value is ever stored, as the first conjunct
shows), an axis event on a control whose stored last raw value is exactly 0
is never sensitivity-suppressed, whatever the sensitivity and the delta:
`last_raw` is always updated to the new value, and the event reaches the
deadzone/duplicate stage, so it is forwarded with its post-clamp value
unless the duplicate check suppresses it. -/
theorem zero_prior_bypass :
    (∀ (dz : ℤ) (s : FilterState) (n : ℕ) (v : ℤ),
      (axisRead dz 0 s n v).state.lastAxisValue = s.lastAxisValue) ∧
    (∀ (dz sens : ℤ) (s : FilterState) (n : ℕ) (v : ℤ), sens ≠ 0 →
      s.lastAxisValue n = some 0 →
      (axisRead dz sens s n v).state.lastAxisValue n = some v ∧
      ((axisRead dz sens s n v).forwarded = some (dzClamp dz v) ∨
        s.lastAxisEmittedValue n = some (dzClamp dz v))) := by
  constructor
  · intro dz s n v
    simp [axisRead]
  · intro dz sens s n v hs h0
    have hsb : (sens != 0) = true := by simpa using hs
    have hj : jsTruthy (s.lastAxisValue n) = false := by rw [h0]; rfl
    by_cases hd : s.lastAxisEmittedValue n = some (dzClamp dz v)
    · refine ⟨?_, Or.inr hd⟩
      simp [axisRead, hj, hsb]
    · refine ⟨?_, Or.inl ?_⟩ <;> simp [axisRead, hj, hsb, hd]

/-- C10 witness: after the filter stores a raw 0 for control 0, a tiny
nonzero value (50, well inside sensitivity 100 and deadzone 750) is not
sensitivity-squelched: `last_raw` becomes 50 and the event proceeds. -/
theorem zero_prior_bypass_witness :
    (axisRead 750 100 (axisRead 750 100 initFilter 0 0).state 0 50).state.lastAxisValue 0
        = some 50 ∧
    ((axisRead 750 100 (axisRead 750 100 initFilter 0 0).state 0 50).forwarded
        = some (dzClamp 750 50) ∨
      (axisRead 750 100 initFilter 0 0).state.lastAxisEmittedValue 0
        = some (dzClamp 750 50)) :=
  zero_prior_bypass.2 750 100 (axisRead 750 100 initFilter 0 0).state 0 50
    (by decide) (by decide)

/-- C9 counterexample: on the 8-byte record whose type byte is `0x03` (bits
0 and 1 both set) the later assignment wins and the decoded kind is `axis`,
so the claim's "kind Button iff bit 0 of byte 6 is set" is false at this
input. -/
theorem parse_kind_cex :
    ((3 : Fin 256).val &&& 1 ≠ 0) ∧
    (parse (Buf8.mk 0 0 0 0 0 0 3 0)).kind = some EvKind.axis ∧
    (parse (Buf8.mk 0 0 0 0 0 0 3 0)).kind ≠ some EvKind.button := by
  decide

/-- C9 (amended): decoder totality and layout — for every 8-byte record,
`parse` produces exactly one event (it is a total pure function) with the
timestamp read little-endian from bytes 0–3, the value congruent mod 2^16 to
the little-endian reading of bytes 4–5 and lying in `[-32768, 32768)`,
the control index from byte 7, `is_init` iff bit 7 of byte 6 is set, kind
`Axis` iff bit 1 of byte 6 is set, and kind `Button` iff bit 0 is set and
bit 1 is clear (when both are set the later `axis` assignment wins; when
neither is set the kind is unclassified). -/
theorem parse_layout_amended : ∀ b : Buf8,
    (parse b).time = b.b0.val + 256 * b.b1.val + 65536 * b.b2.val + 16777216 * b.b3.val ∧
    (parse b).value % 65536 = ((b.b4.val + 256 * b.b5.val : ℕ) : ℤ) % 65536 ∧
    -32768 ≤ (parse b).value ∧ (parse b).value < 32768 ∧
    (parse b).number = b.b7.val ∧
    ((parse b).init = true ↔ b.b6.val &&& 128 ≠ 0) ∧
    ((parse b).kind = some EvKind.axis ↔ b.b6.val &&& 2 ≠ 0) ∧
    ((parse b).kind = some EvKind.button ↔ b.b6.val &&& 1 ≠ 0 ∧ b.b6.val &&& 2 = 0) := by
  intro b
  have h4 := b.b4.isLt
  have h5 := b.b5.isLt
  refine ⟨rfl, ?_, ?_, ?_, rfl, ?_, ?_, ?_⟩
  · simp only [parse, readInt16LE]
    split_ifs with h <;> omega
  · simp only [parse, readInt16LE]
    split_ifs with h <;> omega
  · simp only [parse, readInt16LE]
    split_ifs with h <;> omega
  · simp [parse, bne_iff_ne]
  · cases h2 : (b.b6.val &&& 2 != 0) <;> cases h1 : (b.b6.val &&& 1 != 0) <;>
      simp_all [parse, typeKind, bne_iff_ne, bne_eq_false_iff_eq]
  · cases h2 : (b.b6.val &&& 2 != 0) <;> cases h1 : (b.b6.val &&& 1 != 0) <;>
      simp_all [parse, typeKind, bne_iff_ne, bne_eq_false_iff_eq]

/-- C6 counterexample: the claim is false on the code in two ways.
First, with deadzone 750 and sensitivity 100, after an axis value 0 is
stored as the prior raw value for control 0, the next value 50 satisfies the
claim's antecedent (a prior raw value exists, sensitivity > 0, delta 50 <
100, value ≠ 0), so the claim demands suppression without updating
`last_raw`; the code instead treats the stored 0 as absent (JS truthiness)
and updates `last_raw` to 50.  Second, the run `1000, 1090, 1180` has
consecutive deltas 90 < 100 with later values nonzero, yet both 1000 and
1180 are forwarded, because the squelch compares against the stored
run-start value (1000), not the previous raw value. -/
theorem sensitivity_squelch_cex :
    ((axisRead 750 100 initFilter 0 0).state.lastAxisValue 0 = some 0 ∧
      (100 : ℤ) > 0 ∧ |(50 : ℤ) - 0| < 100 ∧ (50 : ℤ) ≠ 0) ∧
    (axisRead 750 100 (axisRead 750 100 initFilter 0 0).state 0 50).state.lastAxisValue 0
        = some 50 ∧
    (runAxis 750 100 initFilter [(0, 1000), (0, 1090), (0, 1180)]).2 = [1000, 1180] := by
  decide

/-- C6 (amended): sensitivity squelch — with the sensitivity stage enabled,
if a NONZERO prior raw value `w` exists for the control, `|w − value| <
sensitivity` and `value ≠ 0`, the event is suppressed without updating
`last_raw`; otherwise (including when the stored prior value is 0 or absent)
`last_raw` is updated to `value`.  Hence in every run of raw axis values
whose later values are nonzero and within sensitivity OF THE RUN'S STORED
FIRST VALUE `v0 ≠ 0`, only the first value of the run can be forwarded:
every later event forwards nothing and `last_raw` stays `v0`. -/
theorem sensitivity_squelch_amended :
    (∀ (dz sens : ℤ) (s : FilterState) (n : ℕ) (v w : ℤ), sens ≠ 0 →
      s.lastAxisValue n = some w →
      ((w ≠ 0 ∧ |w - v| < sens ∧ v ≠ 0 →
        (axisRead dz sens s n v).state.lastAxisValue = s.lastAxisValue ∧
        (axisRead dz sens s n v).forwarded = none) ∧
      (¬ (w ≠ 0 ∧ |w - v| < sens ∧ v ≠ 0) →
        (axisRead dz sens s n v).state.lastAxisValue n = some v))) ∧
    (∀ (dz sens : ℤ) (s : FilterState) (n : ℕ) (v : ℤ), sens ≠ 0 →
      s.lastAxisValue n = none →
      (axisRead dz sens s n v).state.lastAxisValue n = some v) ∧
    (∀ (dz sens : ℤ) (n : ℕ) (v0 : ℤ) (vs : List ℤ) (s : FilterState), sens ≠ 0 →
      s.lastAxisValue n = some v0 → v0 ≠ 0 →
      (∀ v ∈ vs, v ≠ 0 ∧ |v0 - v| < sens) →
      (runAxis dz sens s (vs.map fun v => (n, v))).2 = [] ∧
      (runAxis dz sens s (vs.map fun v => (n, v))).1.lastAxisValue n = some v0) := by
  refine ⟨?_, ?_, ?_⟩
  · intro dz sens s n v w hs hw
    have hsb : (sens != 0) = true := by simpa using hs
    constructor
    · rintro ⟨hw0, hlt, hv0⟩
      have hb0 : (w != 0) = true := by simpa using hw0
      have hbv : (v != 0) = true := by simpa using hv0
      have hblt : decide (|w - v| < sens) = true := by simpa using hlt
      constructor <;> simp [axisRead, hw, jsTruthy, hsb, hb0, hbv, hblt]
    · intro hnot
      cases hq : (jsTruthy (some w) && decide (|w - v| < sens) && (v != 0)) with
      | true =>
        exfalso
        simp only [Bool.and_eq_true, bne_iff_ne, decide_eq_true_eq, jsTruthy] at hq
        exact hnot ⟨hq.1.1, hq.1.2, hq.2⟩
      | false =>
        have hq' : (jsTruthy (s.lastAxisValue n) &&
            decide (|(s.lastAxisValue n).getD 0 - v| < sens) && (v != 0)) = false := by
          rw [hw]
          simpa using hq
        simp [axisRead, hq', hsb]
  · intro dz sens s n v hs h0
    have hsb : (sens != 0) = true := by simpa using hs
    simp [axisRead, h0, jsTruthy, hsb]
  · intro dz sens n v0 vs
    induction vs with
    | nil =>
      intro s hs h0 hv0 hmem
      exact ⟨rfl, h0⟩
    | cons v vs ih =>
      intro s hs h0 hv0 hmem
      obtain ⟨hv, hlt⟩ := hmem v (List.mem_cons_self v vs)
      have hsb : (sens != 0) = true := by simpa using hs
      have hb0 : (v0 != 0) = true := by simpa using hv0
      have hbv : (v != 0) = true := by simpa using hv
      have hblt : decide (|v0 - v| < sens) = true := by simpa using hlt
      have hfwd : (axisRead dz sens s n v).forwarded = none := by
        simp [axisRead, h0, jsTruthy, hsb, hb0, hbv, hblt]
      have hlast : (axisRead dz sens s n v).state.lastAxisValue = s.lastAxisValue := by
        simp [axisRead, h0, jsTruthy, hsb, hb0, hbv, hblt]
      have hrest := ih (axisRead dz sens s n v).state hs
        (by rw [hlast]; exact h0) hv0
        (fun u hu => hmem u (List.mem_cons_of_mem v hu))
      constructor
      · simp only [List.map, runAxis]
        rw [hfwd]
        simpa using hrest.1
      · simp only [List.map, runAxis]
        exact hrest.2

/-- C6 witness: with a nonzero stored prior value 1000 for control 0, the
value 1050 (delta 50 < sensitivity 100, nonzero) is suppressed without
updating `last_raw`; and a three-event in-sensitivity run on top of the
stored first value 1000 forwards nothing further and keeps `last_raw` at
1000. -/
theorem sensitivity_squelch_amended_witness :
    ((axisRead 750 100 (axisRead 750 100 initFilter 0 1000).state 0 1050).state.lastAxisValue
        = (axisRead 750 100 initFilter 0 1000).state.lastAxisValue ∧
      (axisRead 750 100 (axisRead 750 100 initFilter 0 1000).state 0 1050).forwarded = none) ∧
    ((runAxis 750 100 (axisRead 750 100 initFilter 0 1000).state
        ([1050, 960, 1040].map fun v => (0, v))).2 = [] ∧
      (runAxis 750 100 (axisRead 750 100 initFilter 0 1000).state
        ([1050, 960, 1040].map fun v => (0, v))).1.lastAxisValue 0 = some 1000) :=
  ⟨(sensitivity_squelch_amended.1 750 100 (axisRead 750 100 initFilter 0 1000).state
      0 1050 1000 (by decide) (by decide)).1 (by decide),
    sensitivity_squelch_amended.2.2 750 100 0 1000 [1050, 960, 1040]
      (axisRead 750 100 initFilter 0 1000).state (by decide) (by decide) (by decide)
      (by decide)⟩

/-- Helper: when an axis event is forwarded, the forwarded value is the
post-clamp value, the duplicate tracker differed from it before the event,
and equals it afterwards. -/
theorem axisRead_forwarded_some (dz sens : ℤ) (s : FilterState) (n : ℕ) (v w : ℤ)
    (h : (axisRead dz sens s n v).forwarded = some w) :
    w = dzClamp dz v ∧
    s.lastAxisEmittedValue n ≠ some (dzClamp dz v) ∧
    (axisRead dz sens s n v).state.lastAxisEmittedValue n = some (dzClamp dz v) := by
  by_cases hd : s.lastAxisEmittedValue n = some (dzClamp dz v)
  · exfalso
    simp [axisRead, hd] at h
  · refine ⟨?_, hd, ?_⟩
    · have hdb : (s.lastAxisEmittedValue n == some (dzClamp dz v)) = false := by
        simpa using hd
      simp only [axisRead, hdb, Bool.or_false] at h
      split at h
      · exact absurd h (by simp)
      · exact (Option.some.inj h).symm
    · simp [axisRead, hd]

/-- C7 counterexample: the run `800, 700, 750, 0` (deadzone 750, sensitivity
100) forwards `800, 0, 0` on control 0 — two CONSECUTIVE forwarded events
with the same filtered value 0, because the in-between event 750 was
sensitivity-squelched yet still overwrote the duplicate tracker. -/
theorem duplicate_squelch_cex :
    (runAxis 750 100 initFilter [(0, 800), (0, 700), (0, 750), (0, 0)]).2 = [800, 0, 0] ∧
    (runAxis 750 100 initFilter [(0, 800), (0, 700), (0, 750), (0, 0)]).2.get? 1 =
      (runAxis 750 100 initFilter [(0, 800), (0, 700), (0, 750), (0, 0)]).2.get? 2 ∧
    (runAxis 750 100 initFilter [(0, 800), (0, 700), (0, 750), (0, 0)]).2.get? 2 ≠ none := by
  decide

/-- C7 (amended): deadzone clamp — every axis event with `|value| <
deadzone` (deadzone > 0) that is delivered downstream is delivered as
exactly 0; and no two forwarded axis events for the same control processed
back-to-back (with no intervening processed event on that control) carry the
same post-clamp value.  (Two forwarded events separated by a
sensitivity-squelched event CAN repeat a value, as the counterexample
shows.) -/
theorem deadzone_duplicate_amended :
    (∀ (dz sens : ℤ) (s : FilterState) (n : ℕ) (v : ℤ), 0 < dz → |v| < dz →
      (axisRead dz sens s n v).forwarded = none ∨
      (axisRead dz sens s n v).forwarded = some 0) ∧
    (∀ (dz sens : ℤ) (s : FilterState) (n : ℕ) (v1 v2 w1 w2 : ℤ),
      (axisRead dz sens s n v1).forwarded = some w1 →
      (axisRead dz sens (axisRead dz sens s n v1).state n v2).forwarded = some w2 →
      w2 ≠ w1) := by
  constructor
  · intro dz sens s n v hdz hv
    have hb : (dz != 0) = true := by
      simpa using (by omega : dz ≠ 0)
    have hc : dzClamp dz v = 0 := by
      simp [dzClamp, hb, hv]
    simp only [axisRead, hc]
    split
    · exact Or.inl rfl
    · exact Or.inr rfl
  · intro dz sens s n v1 v2 w1 w2 h1 h2
    obtain ⟨hw1, -, hemit⟩ := axisRead_forwarded_some dz sens s n v1 w1 h1
    obtain ⟨hw2, hne, -⟩ := axisRead_forwarded_some dz sens
      (axisRead dz sens s n v1).state n v2 w2 h2
    rw [hemit] at hne
    intro hcontra
    exact hne (by rw [← hw1, ← hw2, hcontra])

/-- C7 witness: a value inside the deadzone is delivered (if at all) as 0;
two back-to-back forwarded events (800 then 900) carry different values. -/
theorem deadzone_duplicate_amended_witness :
    ((axisRead 750 100 initFilter 0 50).forwarded = none ∨
      (axisRead 750 100 initFilter 0 50).forwarded = some 0) ∧
    (900 : ℤ) ≠ 800 :=
  ⟨deadzone_duplicate_amended.1 750 100 initFilter 0 50 (by decide) (by decide),
    deadzone_duplicate_amended.2 750 100 initFilter 0 800 900 800 900
      (by decide) (by decide)⟩

/-- C4: Continuous-jog feedrate — `decideFeedrate` computes exactly the
spec's formula (`specFinalFeedrate`, written from the spec's words):
Euclidean norm of the per-axis feedrates `|map(value, 32767, 3000)|`,
overridden by the depth feedrate via minimum when the depth stick is active
(depth alone when the planar norm is zero).  At a horizontal stick value of
16383 with vertical and depth inactive, the combined feedrate is exactly
1499.95 = 29999/20, within 0.05 of the claimed ≈1500.00. -/
theorem continuous_feedrate_matches_spec :
    (∀ x y z : AxisSt, decideFeedrate x y z = specFinalFeedrate x y z) ∧
    decideFeedrate (AxisSt.mk 16383 true) (AxisSt.mk 0 false) (AxisSt.mk 0 false)
        = (29999 : ℝ) / 20 ∧
    |(29999 : ℝ) / 20 - 1500| ≤ 1 / 20 := by
  refine ⟨?_, ?_, ?_⟩
  · intro x y z
    by_cases hz : z.active <;>
      by_cases hj : Real.sqrt (((feedrate x.value : ℚ) : ℝ) ^ 2 +
        ((feedrate y.value : ℚ) : ℝ) ^ 2) = 0 <;>
      simp [decideFeedrate, specFinalFeedrate, feedrate, hz, hj]
  · have f1 : feedrate 16383 = 29999 / 20 := by
      norm_num [feedrate, map3, toFixed2, round_eq]
    have f0 : feedrate 0 = 0 := by
      norm_num [feedrate, map3, toFixed2, round_eq]
    have hun : decideFeedrate (AxisSt.mk 16383 true) (AxisSt.mk 0 false) (AxisSt.mk 0 false)
        = Real.sqrt (((feedrate 16383 : ℚ) : ℝ) ^ 2 + ((feedrate 0 : ℚ) : ℝ) ^ 2) := by
      simp [decideFeedrate]
    rw [hun, f1, f0]
    push_cast
    rw [show ((29999 : ℝ) / 20) ^ 2 + (0 : ℝ) ^ 2 = ((29999 : ℝ) / 20) ^ 2 by ring]
    exact Real.sqrt_sq (by norm_num)
  · rw [show (29999 : ℝ) / 20 - 1500 = -(1 / 20) by norm_num, abs_neg,
      abs_of_nonneg (by norm_num : (0 : ℝ) ≤ 1 / 20)]

end Pendant
